import Mathlib

/-!
# Verification of the Vedicchart astrological computation engine

A shallow embedding of the core computation engine of the Vedicchart
repository (`vedic.py`, `vedicutils.py`).  Python floats are modelled as
rationals (`ℚ`); Python's `%` on a positive modulus is the function `fmod`
below; Python's `floor` / `//` is `Int.floor`; dictionaries keyed by strings
become association lists.  The external swisseph ephemeris is abstracted as
a function from body name to (longitude, speed), exactly the data
`get_planet_positions` reads from it.
-/

namespace Vedicchart

/-- Python's `a % b` for rationals with `b > 0`: the representative of
`a` mod `b` lying in `[0, b)`. -/
def fmod (a b : ℚ) : ℚ := a - b * ⌊a / b⌋

theorem fmod_eq_fract (a b : ℚ) (hb : b ≠ 0) : fmod a b = b * Int.fract (a / b) := by
  unfold fmod Int.fract
  field_simp

theorem fmod_nonneg (a : ℚ) {b : ℚ} (hb : 0 < b) : 0 ≤ fmod a b := by
  rw [fmod_eq_fract a b (ne_of_gt hb)]
  exact mul_nonneg (le_of_lt hb) (Int.fract_nonneg _)

theorem fmod_lt (a : ℚ) {b : ℚ} (hb : 0 < b) : fmod a b < b := by
  rw [fmod_eq_fract a b (ne_of_gt hb)]
  calc b * Int.fract (a / b) < b * 1 := by
        exact mul_lt_mul_of_pos_left (Int.fract_lt_one _) hb
    _ = b := mul_one b

/-- Table `ZODIAC_SIGNS` from `vedicutils.py`. -/
def ZODIAC_SIGNS : List String :=
  ["Aries", "Taurus", "Gemini", "Cancer", "Leo", "Virgo",
   "Libra", "Scorpio", "Sagittarius", "Capricorn", "Aquarius", "Pisces"]

/-- Table `NAKSHATRAS` from `vedicutils.py` (27 names). -/
def NAKSHATRAS : List String :=
  ["Ashwini", "Bharani", "Krittika", "Rohini", "Mrigashira", "Ardra",
   "Punarvasu", "Pushya", "Ashlesha", "Magha", "Purva Phalguni",
   "Uttara Phalguni", "Hasta", "Chitra", "Swati", "Vishakha", "Anuradha",
   "Jyeshtha", "Mula", "Purva Ashadha", "Uttara Ashadha", "Shravana",
   "Dhanishta", "Shatabhisha", "Purva Bhadrapada", "Uttara Bhadrapada",
   "Revati"]

/-- Table `DASHA_SEQUENCE` from `vedicutils.py`: the fixed 9 (lord, years) pairs. -/
def DASHA_SEQUENCE : List (String × ℚ) :=
  [("Ketu", 7), ("Venus", 20), ("Sun", 6), ("Moon", 10), ("Mars", 7),
   ("Rahu", 18), ("Jupiter", 16), ("Saturn", 19), ("Mercury", 17)]

/-- Table `NAKSHATRA_TO_DASHA_LORD` from `vedicutils.py`: the 9 lords repeated 3
times (27 entries, one per nakshatra). -/
def NAKSHATRA_TO_DASHA_LORD : List String :=
  DASHA_SEQUENCE.map Prod.fst ++ DASHA_SEQUENCE.map Prod.fst ++
    DASHA_SEQUENCE.map Prod.fst

/-- Constant `NAKSHATRA_SPAN = 13 + 1/3` degrees. -/
def NAKSHATRA_SPAN : ℚ := 13 + 1 / 3

/-- Table `TITHIS` from `vedicutils.py`: a 15-name list repeated twice (30 entries). -/
def TITHIS : List String :=
  let half := ["Pratipada", "Dvitiya", "Tritiya", "Chaturthi", "Panchami",
    "Shashthi", "Saptami", "Ashtami", "Navami", "Dashami", "Ekadashi",
    "Dvadashi", "Trayodashi", "Chaturdashi", "Purnima / Amavasya"]
  half ++ half

/-- Table `KARANAS` from `vedicutils.py` (18 entries). -/
def KARANAS : List String :=
  ["Bava", "Balava", "Kaulava", "Taitila", "Garaja", "Vanija", "Vishti",
   "Bava", "Balava", "Kaulava", "Taitila", "Garaja", "Vanija", "Vishti",
   "Shakuni", "Chatushpada", "Naga", "Kimstughna"]

/-- Table `YOGAS` from `vedicutils.py` (27 entries). -/
def YOGAS : List String :=
  ["Vishkambha", "Priti", "Ayushman", "Saubhagya", "Shobhana", "Atiganda",
   "Sukarma", "Dhriti", "Shoola", "Ganda", "Vriddhi", "Dhruva", "Vyaghata",
   "Harshana", "Vajra", "Siddhi", "Vyatipata", "Variyana", "Parigha",
   "Shiva", "Siddha", "Sadhya", "Shubha", "Shukla", "Brahma", "Indra",
   "Vaidhriti"]

/-- The index `int(degree // 30) % 12` used by `get_zodiac_sign` and
`get_house_signs`.  (`degree // 30` is a float floor; `int` of an
integral float is that integer; Python `%` on a positive int modulus
yields a value in `[0, 12)`.) -/
def zodiacIndex (degree : ℚ) : ℕ := ((⌊degree / 30⌋ : ℤ) % 12).toNat

/-- Function `get_zodiac_sign` from `vedicutils.py`. -/
def get_zodiac_sign (degree : ℚ) : String := ZODIAC_SIGNS.getD (zodiacIndex degree) ""

/-- Function `get_divisional_sign` from `vedicutils.py`:
`sign_index = int((original_degree % 30) * varga_division // 30)`,
`final_sign = (int(original_degree // 30) * varga_division + sign_index) % 12`. -/
def get_divisional_sign (original_degree : ℚ) (varga_division : ℕ) : String :=
  let sign_index : ℤ := ⌊fmod original_degree 30 * (varga_division : ℚ) / 30⌋
  let final_sign : ℤ := (⌊original_degree / 30⌋ * (varga_division : ℤ) + sign_index) % 12
  ZODIAC_SIGNS.getD final_sign.toNat ""

/-- Function `get_house_signs` from `vedicutils.py`: the 12 signs starting from the
ascendant's sign, cyclically. -/
def get_house_signs (asc_deg : ℚ) : List String :=
  (List.range 12).map (fun i => ZODIAC_SIGNS.getD ((zodiacIndex asc_deg + i) % 12) "")

/-- The combustion threshold table of `is_combust` in `vedicutils.py`
(`combustion_ranges.get(planet_name, 8)`). -/
def combustion_threshold (planet_name : String) : ℚ :=
  if planet_name = "Mercury" then 12
  else if planet_name = "Venus" then 10
  else if planet_name = "Mars" then 17
  else if planet_name = "Jupiter" then 11
  else if planet_name = "Saturn" then 15
  else 8

/-- The shortest angular distance `abs((planet_deg - sun_deg + 180) % 360 - 180)`
computed by `is_combust`. -/
def angular_diff (planet_deg sun_deg : ℚ) : ℚ :=
  |fmod (planet_deg - sun_deg + 180) 360 - 180|

/-- Function `is_combust` from `vedicutils.py`. -/
def is_combust (planet_name : String) (planet_deg sun_deg : ℚ) : Bool :=
  decide (angular_diff planet_deg sun_deg < combustion_threshold planet_name)

/- ### C8: `get_divisional_sign` with division factor 1 agrees with
`get_zodiac_sign` on every longitude. -/

theorem fmod_div_floor_eq_zero (a : ℚ) : ⌊fmod a 30 * (1 : ℚ) / 30⌋ = 0 := by
  rw [Int.floor_eq_zero_iff]
  constructor
  · have h := fmod_nonneg a (b := 30) (by norm_num)
    rw [mul_one]
    positivity
  · have h := fmod_lt a (b := 30) (by norm_num)
    rw [mul_one]
    simp only [Set.mem_Ico] at *
    linarith

/-- C8: the harmonic-sign mapping with division factor 1 is the identity
division: `get_divisional_sign L 1 = get_zodiac_sign L` for every longitude
`L`. -/
theorem divisional_sign_one_eq_zodiac_sign (L : ℚ) :
    get_divisional_sign L 1 = get_zodiac_sign L := by
  unfold get_divisional_sign get_zodiac_sign zodiacIndex
  have h1 : ⌊fmod L 30 * ((1 : ℕ) : ℚ) / 30⌋ = 0 := by
    rw [Nat.cast_one]
    exact fmod_div_floor_eq_zero L
  rw [h1]
  norm_num

/- ### Data model (`vedicutils.py` dataclasses, ephemeris abstraction) -/

/-- One body's raw ephemeris answer (`swe.calc_ut`): sidereal longitude and
speed.  The swisseph subsystem is external; the engine consumes it as an
abstract map from body name to this data. -/
structure EphEntry where
  longitude : ℚ
  speed : ℚ
  deriving DecidableEq

/-- The `Planet` dataclass of `vedicutils.py`. -/
structure Planet where
  name : String
  longitude : ℚ
  sign : String
  retrograde : Bool
  deriving DecidableEq

/-- The `House` dataclass of `vedicutils.py`. -/
structure House where
  number : ℕ
  sign : String
  planets : List String
  deriving DecidableEq

/-- The `Chart` dataclass of `vedicutils.py`; the `planets` dict becomes an
association list in dict insertion order. -/
structure Chart where
  ascendant_sign : String
  ascendant_degree : ℚ
  houses : List House
  planets : List (String × Planet)
  chart_type : String := "D1"
  deriving DecidableEq

/-- The 9 recognized body names, in the iteration order of the `PLANETS`
dict of `vedicutils.py`. -/
def PLANET_NAMES : List String :=
  ["Sun", "Moon", "Mars", "Mercury", "Jupiter", "Venus", "Saturn", "Rahu", "Ketu"]

/-- Function `get_planet_positions` from `vedicutils.py`, with the swisseph query
abstracted as `eph`.  Each entry is (name, sidereal longitude,
retrograde = speed < 0); Rahu is the queried mean node marked always
retrograde, and Ketu is Rahu + 180 (mod 360), also always retrograde,
never queried from the ephemeris.  (The `degree`/`speed` fields of the
Python dict are dropped: no engine consumer reads them.) -/
def get_planet_positions (eph : String → EphEntry) : List (String × ℚ × Bool) :=
  ["Sun", "Moon", "Mars", "Mercury", "Jupiter", "Venus", "Saturn"].map
    (fun n => (n, (eph n).longitude, decide ((eph n).speed < 0)))
  ++ [("Rahu", (eph "Rahu").longitude, true),
      ("Ketu", fmod ((eph "Rahu").longitude + 180) 360, true)]

/-- The house-assignment step shared by `get_birth_chart` and
`get_divisional_chart` in `vedic.py`: scan the houses in order and append
the body name to the first house whose sign matches (`break` after the
first hit). -/
def assignPlanet : List House → String → String → List House
  | [], _, _ => []
  | h :: rest, sign, name =>
    if h.sign = sign then { h with planets := h.planets ++ [name] } :: rest
    else h :: assignPlanet rest sign name

/-- The per-body assignment loop of the chart builders: fold `assignPlanet`
over the ephemeris position list, the sign of each body computed by `sig`
(plain zodiac sign for the natal chart, divisional sign for a varga chart). -/
def assignAll (sig : String × ℚ × Bool → String) (ps : List (String × ℚ × Bool))
    (hs : List House) : List House :=
  ps.foldl (fun acc p => assignPlanet acc (sig p) p.1) hs

/-- Total number of times the body name `n` occurs across all houses. -/
def countName (hs : List House) (n : String) : ℕ :=
  (hs.map (fun h => h.planets.count n)).sum

/-- The house construction `House(number=i+1, sign=sign)` over an
enumerated sign list (`enumerate` starting the house numbers at `number`). -/
def makeHouses (number : ℕ) : List String → List House
  | [] => []
  | s :: rest => House.mk number s [] :: makeHouses (number + 1) rest

theorem makeHouses_map_sign (number : ℕ) (signs : List String) :
    (makeHouses number signs).map House.sign = signs := by
  induction signs generalizing number with
  | nil => rfl
  | cons s rest ih => simp [makeHouses, ih]

theorem makeHouses_planets (number : ℕ) (signs : List String) :
    ∀ h ∈ makeHouses number signs, h.planets = [] := by
  induction signs generalizing number with
  | nil => intro h hh; simp [makeHouses] at hh
  | cons s rest ih =>
    intro h hh
    simp only [makeHouses, List.mem_cons] at hh
    rcases hh with hh | hh
    · rw [hh]
    · exact ih _ h hh

theorem assignPlanet_map_sign (hs : List House) (s m : String) :
    (assignPlanet hs s m).map House.sign = hs.map House.sign := by
  induction hs with
  | nil => rfl
  | cons h rest ih =>
    by_cases hc : h.sign = s
    · simp [assignPlanet, hc]
    · simp [assignPlanet, hc, ih]

theorem countName_assignPlanet_self (hs : List House) (s m : String)
    (hmem : s ∈ hs.map House.sign) :
    countName (assignPlanet hs s m) m = countName hs m + 1 := by
  induction hs with
  | nil => simp at hmem
  | cons h rest ih =>
    by_cases hc : h.sign = s
    · simp [assignPlanet, hc, countName, List.count_append, List.count_singleton_self]
      ring
    · simp only [List.map_cons, List.mem_cons] at hmem
      rcases hmem with hmem | hmem
      · exact absurd hmem.symm hc
      · simp only [assignPlanet, if_neg hc, countName, List.map_cons, List.sum_cons]
        have := ih hmem
        simp only [countName] at this
        omega

theorem countName_assignPlanet_of_ne (hs : List House) (s : String) {n m : String}
    (hne : n ≠ m) : countName (assignPlanet hs s m) n = countName hs n := by
  induction hs with
  | nil => rfl
  | cons h rest ih =>
    by_cases hc : h.sign = s
    · simp only [assignPlanet, if_pos hc, countName, List.map_cons, List.sum_cons,
        List.count_append]
      have : [m].count n = 0 := by
        simp [List.count_singleton]
        intro hmn
        exact absurd hmn.symm hne
      omega
    · simp only [assignPlanet, if_neg hc, countName, List.map_cons, List.sum_cons]
      have := ih
      simp only [countName] at this
      omega

theorem assignAll_map_sign (sig : String × ℚ × Bool → String)
    (ps : List (String × ℚ × Bool)) (hs : List House) :
    (assignAll sig ps hs).map House.sign = hs.map House.sign := by
  induction ps generalizing hs with
  | nil => rfl
  | cons p rest ih =>
    simp only [assignAll, List.foldl_cons]
    rw [show (List.foldl (fun acc q => assignPlanet acc (sig q) q.1) (assignPlanet hs (sig p) p.1) rest) = assignAll sig rest (assignPlanet hs (sig p) p.1) from rfl]
    rw [ih, assignPlanet_map_sign]

theorem countName_assignAll (sig : String × ℚ × Bool → String) :
    ∀ (ps : List (String × ℚ × Bool)) (hs : List House) (n : String),
      (ps.map (fun p => p.1)).Nodup →
      (∀ p ∈ ps, sig p ∈ hs.map House.sign) →
      countName (assignAll sig ps hs) n =
        countName hs n + (if n ∈ ps.map (fun p => p.1) then 1 else 0) := by
  intro ps
  induction ps with
  | nil => intro hs n _ _; simp [assignAll]
  | cons p rest ih =>
    intro hs n hnodup hsig
    simp only [List.map_cons, List.nodup_cons] at hnodup
    have hstep : assignAll sig (p :: rest) hs =
        assignAll sig rest (assignPlanet hs (sig p) p.1) := rfl
    rw [hstep]
    have hsig' : ∀ q ∈ rest, sig q ∈ (assignPlanet hs (sig p) p.1).map House.sign := by
      intro q hq
      rw [assignPlanet_map_sign]
      exact hsig q (List.mem_cons_of_mem p hq)
    rw [ih (assignPlanet hs (sig p) p.1) n hnodup.2 hsig']
    by_cases hn : n = p.1
    · subst hn
      rw [countName_assignPlanet_self hs (sig p) p.1 (hsig p (List.mem_cons_self p rest))]
      have hnotrest : p.1 ∉ rest.map (fun p => p.1) := hnodup.1
      simp [hnotrest]
    · rw [countName_assignPlanet_of_ne hs (sig p) hn]
      simp only [List.map_cons, List.mem_cons]
      have : (n ∈ (fun p => p.1) p :: rest.map fun p => p.1) ↔
          (n ∈ rest.map fun p => p.1) := by
        constructor
        · intro h
          rcases List.mem_cons.mp h with h | h
          · exact absurd h hn
          · exact h
        · exact fun h => List.mem_cons_of_mem _ h
      rcases Decidable.em (n ∈ rest.map fun p => p.1) with hmem | hmem
      · simp [hmem, this]
      · simp [hmem, this, hn]

/-- Where a name inside a house can come from after one assignment step:
either it was already there (in a house of the same sign), or it is the
newly assigned name placed in a house carrying the assigned sign. -/
theorem assignPlanet_origin (hs : List House) (s m : String) :
    ∀ h' ∈ assignPlanet hs s m, ∀ n ∈ h'.planets,
      (∃ h ∈ hs, h.sign = h'.sign ∧ n ∈ h.planets) ∨ (n = m ∧ h'.sign = s) := by
  induction hs with
  | nil => intro h' hh'; simp [assignPlanet] at hh'
  | cons h rest ih =>
    intro h' hh' n hn
    by_cases hc : h.sign = s
    · simp only [assignPlanet, if_pos hc, List.mem_cons] at hh'
      rcases hh' with hh' | hh'
      · subst hh'
        simp only [List.mem_append, List.mem_singleton] at hn
        rcases hn with hn | hn
        · exact Or.inl ⟨h, List.mem_cons_self _ _, rfl, hn⟩
        · exact Or.inr ⟨hn, hc⟩
      · exact Or.inl ⟨h', List.mem_cons_of_mem _ hh', rfl, hn⟩
    · simp only [assignPlanet, if_neg hc, List.mem_cons] at hh'
      rcases hh' with hh' | hh'
      · subst hh'
        exact Or.inl ⟨h', List.mem_cons_self _ _, rfl, hn⟩
      · rcases ih h' hh' n hn with ⟨h₀, hh₀, hsgn, hmem⟩ | hr
        · exact Or.inl ⟨h₀, List.mem_cons_of_mem _ hh₀, hsgn, hmem⟩
        · exact Or.inr hr

/-- Provenance through the whole assignment fold: any name found in a house
was either there initially or is the key of some position entry whose
computed sign is that house's sign. -/
theorem assignAll_origin (sig : String × ℚ × Bool → String) :
    ∀ (ps : List (String × ℚ × Bool)) (hs : List House),
      ∀ h' ∈ assignAll sig ps hs, ∀ n ∈ h'.planets,
        (∃ h ∈ hs, h.sign = h'.sign ∧ n ∈ h.planets) ∨
        (∃ p ∈ ps, p.1 = n ∧ sig p = h'.sign) := by
  intro ps
  induction ps with
  | nil =>
    intro hs h' hh' n hn
    exact Or.inl ⟨h', hh', rfl, hn⟩
  | cons p rest ih =>
    intro hs h' hh' n hn
    have hstep : assignAll sig (p :: rest) hs =
        assignAll sig rest (assignPlanet hs (sig p) p.1) := rfl
    rw [hstep] at hh'
    rcases ih (assignPlanet hs (sig p) p.1) h' hh' n hn with
      ⟨h₀, hh₀, hsgn, hmem⟩ | ⟨q, hq, hqn, hqs⟩
    · rcases assignPlanet_origin hs (sig p) p.1 h₀ hh₀ n hmem with
        ⟨h₁, hh₁, hsgn', hmem'⟩ | ⟨hnm, hsgn'⟩
      · exact Or.inl ⟨h₁, hh₁, hsgn'.trans hsgn, hmem'⟩
      · exact Or.inr ⟨p, List.mem_cons_self _ _, hnm.symm, hsgn'.symm.trans hsgn⟩
    · exact Or.inr ⟨q, List.mem_cons_of_mem _ hq, hqn, hqs⟩

/- ### Zodiac-sign membership and rotation facts -/

theorem zodiac_nodup : ZODIAC_SIGNS.Nodup := by decide

theorem getD_zodiac_mem : ∀ j, j < 12 → ZODIAC_SIGNS.getD j "" ∈ ZODIAC_SIGNS := by decide

theorem zodiacIndex_lt (d : ℚ) : zodiacIndex d < 12 := by
  unfold zodiacIndex
  have h := Int.emod_lt_of_pos (⌊d / 30⌋) (show (0 : ℤ) < 12 by norm_num)
  omega

theorem get_zodiac_sign_mem (d : ℚ) : get_zodiac_sign d ∈ ZODIAC_SIGNS :=
  getD_zodiac_mem _ (zodiacIndex_lt d)

theorem get_divisional_sign_mem (d : ℚ) (v : ℕ) :
    get_divisional_sign d v ∈ ZODIAC_SIGNS := by
  unfold get_divisional_sign
  apply getD_zodiac_mem
  have h := Int.emod_lt_of_pos (⌊d / 30⌋ * (v : ℤ) + ⌊fmod d 30 * (v : ℚ) / 30⌋)
    (show (0 : ℤ) < 12 by norm_num)
  omega

/-- Rotating the 12-sign table by any offset `k < 12` yields a permutation
of the table. -/
theorem rotation_perm : ∀ k, k < 12 →
    ((List.range 12).map (fun i => ZODIAC_SIGNS.getD ((k + i) % 12) "")).Perm
      ZODIAC_SIGNS := by decide

theorem get_house_signs_perm (asc_deg : ℚ) :
    (get_house_signs asc_deg).Perm ZODIAC_SIGNS :=
  rotation_perm _ (zodiacIndex_lt asc_deg)

/- ### Chart builders (`vedic.py`) -/

/-- The `houses` local of `get_birth_chart`: 12 houses numbered from 1 with
the signs of `get_house_signs`, then each body appended to the first house
matching its zodiac sign. -/
def birthHouses (asc_deg : ℚ) (eph : String → EphEntry) : List House :=
  assignAll (fun p => get_zodiac_sign p.2.1) (get_planet_positions eph)
    (makeHouses 1 (get_house_signs asc_deg))

/-- The `planets_by_name` dict of `get_birth_chart`. -/
def birthPlanets (eph : String → EphEntry) : List (String × Planet) :=
  (get_planet_positions eph).map
    (fun p => (p.1, Planet.mk p.1 p.2.1 (get_zodiac_sign p.2.1) p.2.2))

/-- The chart-construction core of `get_birth_chart` in `vedic.py`, with the
swisseph queries abstracted: `asc_deg` is the ascendant longitude returned
by `get_ascendant` and `eph` the raw ephemeris.  (The accompanying
`formatted_text` rendering is not modelled; no verified property reads it.) -/
def get_birth_chart (asc_deg : ℚ) (eph : String → EphEntry) : Chart :=
  Chart.mk (get_zodiac_sign asc_deg) asc_deg (birthHouses asc_deg eph)
    (birthPlanets eph) "D1"

/-- The `SUPPORTED_DIVISIONAL_CHARTS` dict of `get_divisional_chart`
(`vedic.py`), as an association list in insertion order. -/
def SUPPORTED_DIVISIONAL_CHARTS : List (String × ℕ) :=
  [("D1", 1), ("D2", 2), ("D3", 3), ("D4", 4), ("D5", 5), ("D6", 6),
   ("D7", 7), ("D8", 8), ("D9", 9), ("D10", 10), ("D11", 11), ("D12", 12),
   ("D16", 16), ("D20", 20), ("D24", 24), ("D27", 27), ("D30", 30),
   ("D40", 40), ("D45", 45), ("D60", 60)]

/-- The result dict of `get_divisional_chart`: a chart (or `None` for an
unsupported chart type) plus the formatted text. -/
structure DivResult where
  chart : Option Chart
  formatted_text : String
  deriving DecidableEq

/-- The per-house text lines built at the end of `get_divisional_chart`,
appended to the ascendant line and stripped (Python `str.strip`). -/
def divisionalText (asc_sign : String) (houses : List House) : String :=
  (houses.foldl
    (fun t h => h.planets.foldl
      (fun t2 p => t2 ++ p ++ " is in your " ++ toString h.number ++
        "th house in " ++ h.sign ++ " sign.\n") t)
    ("The Ascendant (Lagna) is in " ++ asc_sign ++ " sign.\n")).trim

/-- The sign list of `house_objs` in `get_divisional_chart`:
`ZODIAC_SIGNS[(ZODIAC_SIGNS.index(asc_sign) + i) % 12]` for `i` in 0..11. -/
def divisionalSigns (asc_sign : String) : List String :=
  (List.range 12).map
    (fun i => ZODIAC_SIGNS.getD ((ZODIAC_SIGNS.indexOf asc_sign + i) % 12) "")

/-- The `house_objs` of `get_divisional_chart` after the per-body
assignment loop. -/
def divisionalHouses (division_factor : ℕ) (asc_deg : ℚ)
    (eph : String → EphEntry) : List House :=
  assignAll (fun p => get_divisional_sign p.2.1 division_factor)
    (get_planet_positions eph)
    (makeHouses 1 (divisionalSigns (get_divisional_sign asc_deg division_factor)))

/-- The `planets` dict of `get_divisional_chart`. -/
def divisionalPlanets (division_factor : ℕ) (eph : String → EphEntry) :
    List (String × Planet) :=
  (get_planet_positions eph).map
    (fun p => (p.1, Planet.mk p.1 p.2.1 (get_divisional_sign p.2.1 division_factor) p.2.2))

/-- Function `get_divisional_chart` from `vedic.py`, with the swisseph queries
abstracted (`asc_deg` the queried ascendant longitude, `eph` the raw
ephemeris).  The unsupported-code check happens before any ephemeris use,
exactly as in the source. -/
def get_divisional_chart (chart_type : String) (asc_deg : ℚ)
    (eph : String → EphEntry) : DivResult :=
  match SUPPORTED_DIVISIONAL_CHARTS.lookup chart_type with
  | none =>
    { chart := none,
      formatted_text := "Unsupported divisional chart type. Please choose from: " ++
        String.intercalate ", " (SUPPORTED_DIVISIONAL_CHARTS.map Prod.fst) }
  | some division_factor =>
    { chart := some (Chart.mk (get_divisional_sign asc_deg division_factor) asc_deg
        (divisionalHouses division_factor asc_deg eph)
        (divisionalPlanets division_factor eph) chart_type),
      formatted_text := divisionalText (get_divisional_sign asc_deg division_factor)
        (divisionalHouses division_factor asc_deg eph) }

/- ### Shared chart-construction properties -/

theorem countName_makeHouses (k : ℕ) (signs : List String) (n : String) :
    countName (makeHouses k signs) n = 0 := by
  induction signs generalizing k with
  | nil => rfl
  | cons s rest ih => simp [makeHouses, countName, List.count_nil] at ih ⊢; exact ih _

theorem planet_names_eq (eph : String → EphEntry) :
    (get_planet_positions eph).map (fun p => p.1) = PLANET_NAMES := rfl

/-- Combined partition property of the assignment fold over an initial
12-house layout whose signs are a permutation of the zodiac table. -/
theorem houses_partition (sig : String × ℚ × Bool → String)
    (ps : List (String × ℚ × Bool)) (signs : List String)
    (hnodup : (ps.map (fun p => p.1)).Nodup)
    (hperm : signs.Perm ZODIAC_SIGNS)
    (hsig : ∀ p ∈ ps, sig p ∈ ZODIAC_SIGNS) :
    (∀ n, countName (assignAll sig ps (makeHouses 1 signs)) n =
        if n ∈ ps.map (fun p => p.1) then 1 else 0) ∧
    (∀ h ∈ assignAll sig ps (makeHouses 1 signs), ∀ n ∈ h.planets,
        ∃ p ∈ ps, p.1 = n ∧ sig p = h.sign) := by
  constructor
  · intro n
    rw [countName_assignAll sig ps (makeHouses 1 signs) n hnodup]
    · rw [countName_makeHouses]
      omega
    · intro p hp
      rw [makeHouses_map_sign]
      exact hperm.mem_iff.mpr (hsig p hp)
  · intro h hh n hn
    rcases assignAll_origin sig ps (makeHouses 1 signs) h hh n hn with
      ⟨h₀, hh₀, _, hmem⟩ | hfound
    · rw [makeHouses_planets 1 signs h₀ hh₀] at hmem
      simp at hmem
    · exact hfound

theorem get_birth_chart_def (asc_deg : ℚ) (eph : String → EphEntry) :
    get_birth_chart asc_deg eph = Chart.mk (get_zodiac_sign asc_deg) asc_deg
      (birthHouses asc_deg eph) (birthPlanets eph) "D1" := rfl

theorem get_birth_chart_houses (asc_deg : ℚ) (eph : String → EphEntry) :
    (get_birth_chart asc_deg eph).houses = birthHouses asc_deg eph := by
  rw [get_birth_chart_def]

theorem get_birth_chart_planets (asc_deg : ℚ) (eph : String → EphEntry) :
    (get_birth_chart asc_deg eph).planets = birthPlanets eph := by
  rw [get_birth_chart_def]

theorem divisional_signs_perm (asc_sign : String) (hmem : asc_sign ∈ ZODIAC_SIGNS) :
    (divisionalSigns asc_sign).Perm ZODIAC_SIGNS := by
  apply rotation_perm
  have h := List.indexOf_lt_length.mpr hmem
  simpa using h

/-- C2: for every chart built by `get_birth_chart` and by
`get_divisional_chart` with a supported chart type, each of the 9
recognized bodies occurs exactly once across the 12 houses' planet lists
(no other name occurs at all, so empty houses have empty lists), each body
sits in a house whose sign equals that body's recorded sign, and the house
signs are pairwise distinct, making that house unique. -/
theorem chart_bodies_partition (asc_deg : ℚ) (eph : String → EphEntry)
    (chart_type : String) (c2 : Chart)
    (hdiv : (get_divisional_chart chart_type asc_deg eph).chart = some c2) :
    (∀ n, countName (get_birth_chart asc_deg eph).houses n =
        if n ∈ PLANET_NAMES then 1 else 0) ∧
    (∀ h ∈ (get_birth_chart asc_deg eph).houses, ∀ n ∈ h.planets,
        ∃ pr ∈ (get_birth_chart asc_deg eph).planets, pr.1 = n ∧ pr.2.sign = h.sign) ∧
    ((get_birth_chart asc_deg eph).houses.map House.sign).Nodup ∧
    (∀ n, countName c2.houses n = if n ∈ PLANET_NAMES then 1 else 0) ∧
    (∀ h ∈ c2.houses, ∀ n ∈ h.planets,
        ∃ pr ∈ c2.planets, pr.1 = n ∧ pr.2.sign = h.sign) ∧
    (c2.houses.map House.sign).Nodup := by
  have hnodup : ((get_planet_positions eph).map (fun p => p.1)).Nodup := by
    rw [planet_names_eq]
    decide
  have hbirth := houses_partition (fun p => get_zodiac_sign p.2.1)
    (get_planet_positions eph) (get_house_signs asc_deg) hnodup
    (get_house_signs_perm asc_deg) (fun p _ => get_zodiac_sign_mem p.2.1)
  rcases hlook : SUPPORTED_DIVISIONAL_CHARTS.lookup chart_type with _ | f
  · rw [get_divisional_chart, hlook] at hdiv
    simp at hdiv
  · rw [get_divisional_chart, hlook] at hdiv
    simp only [Option.some.injEq] at hdiv
    have hhouses : c2.houses = divisionalHouses f asc_deg eph := by rw [← hdiv]
    have hplanets : c2.planets = divisionalPlanets f eph := by rw [← hdiv]
    have hperm2 := divisional_signs_perm (get_divisional_sign asc_deg f)
      (get_divisional_sign_mem asc_deg f)
    have hdivp := houses_partition (fun p => get_divisional_sign p.2.1 f)
      (get_planet_positions eph)
      (divisionalSigns (get_divisional_sign asc_deg f))
      hnodup hperm2 (fun p _ => get_divisional_sign_mem p.2.1 f)
    refine ⟨?_, ?_, ?_, ?_, ?_, ?_⟩
    · intro n
      rw [get_birth_chart_houses]
      unfold birthHouses
      rw [← planet_names_eq eph]
      exact hbirth.1 n
    · intro h hh n hn
      rw [get_birth_chart_houses] at hh
      unfold birthHouses at hh
      rcases hbirth.2 h hh n hn with ⟨p, hp, hpn, hps⟩
      rw [get_birth_chart_planets]
      unfold birthPlanets
      exact ⟨(p.1, Planet.mk p.1 p.2.1 (get_zodiac_sign p.2.1) p.2.2),
        List.mem_map_of_mem _ hp, hpn, hps⟩
    · have hsgns : (birthHouses asc_deg eph).map House.sign = get_house_signs asc_deg := by
        unfold birthHouses
        rw [assignAll_map_sign, makeHouses_map_sign]
      rw [get_birth_chart_houses, hsgns]
      exact ((get_house_signs_perm asc_deg).nodup_iff).mpr zodiac_nodup
    · intro n
      rw [hhouses]
      unfold divisionalHouses
      rw [← planet_names_eq eph]
      exact hdivp.1 n
    · intro h hh n hn
      rw [hhouses] at hh
      unfold divisionalHouses at hh
      rcases hdivp.2 h hh n hn with ⟨p, hp, hpn, hps⟩
      rw [hplanets]
      unfold divisionalPlanets
      exact ⟨(p.1, Planet.mk p.1 p.2.1 (get_divisional_sign p.2.1 f) p.2.2),
        List.mem_map_of_mem _ hp, hpn, hps⟩
    · have hsgns : (divisionalHouses f asc_deg eph).map House.sign =
          divisionalSigns (get_divisional_sign asc_deg f) := by
        unfold divisionalHouses
        rw [assignAll_map_sign, makeHouses_map_sign]
      rw [hhouses, hsgns]
      exact hperm2.nodup_iff.mpr zodiac_nodup

/- ### Transit engine (`compare_transits` in `vedic.py`) -/

/-- One per-body record of the `results` dict built by `compare_transits`. -/
structure TransitEntry where
  transit_sign : String
  transit_house : Option ℕ
  retrograde : Bool
  combust : Bool
  transit_longitude : ℚ
  deriving DecidableEq

/-- Value `sun_deg = transits["Sun"]["longitude"]` in `compare_transits`. -/
def transitSunDeg (eph : String → EphEntry) : ℚ :=
  (((get_planet_positions eph).lookup "Sun").getD (0, false)).1

/-- The `transit_data` component of `compare_transits` in `vedic.py`: for
every transiting body, its sign, the first natal house with that sign
(`next(..., None)`), the retrograde flag, the combustion state against the
current Sun, and the raw longitude.  (The `formatted_text` rendering is not
modelled; no verified property reads it.) -/
def compare_transits (eph : String → EphEntry) (natal_chart : Chart) :
    List (String × TransitEntry) :=
  (get_planet_positions eph).map (fun p =>
    (p.1, TransitEntry.mk (get_zodiac_sign p.2.1)
      ((natal_chart.houses.find? (fun h => h.sign == get_zodiac_sign p.2.1)).map House.number)
      p.2.2
      (is_combust p.1 p.2.1 (transitSunDeg eph))
      p.2.1))

theorem transitSunDeg_eq (eph : String → EphEntry) :
    transitSunDeg eph = (eph "Sun").longitude := rfl

theorem angular_diff_self (x : ℚ) : angular_diff x x = 0 := by
  unfold angular_diff
  have h : x - x + 180 = (180 : ℚ) := by ring
  rw [h]
  unfold fmod
  norm_num

theorem is_combust_sun_self (x : ℚ) : is_combust "Sun" x x = true := by
  unfold is_combust
  rw [angular_diff_self]
  simp [combustion_threshold]

/-- C1 (amended): in every `compare_transits` result, each body's combust
flag is true exactly when its shortest angular distance from the current
Sun longitude is strictly below its threshold (Mercury 12, Venus 10,
Mars 17, Jupiter 11, Saturn 15, default 8) — and the Sun is *not* excluded
from the check: it gets the default 8° threshold against itself, so its
combust flag is always true. -/
theorem compare_transits_combust_amended (eph : String → EphEntry) (natal : Chart) :
    (∀ pr ∈ compare_transits eph natal,
      (pr.2.combust = true ↔
        angular_diff pr.2.transit_longitude (eph "Sun").longitude <
          combustion_threshold pr.1)) ∧
    (∀ pr ∈ compare_transits eph natal, pr.1 = "Sun" → pr.2.combust = true) := by
  have key : ∀ pr ∈ compare_transits eph natal,
      pr.2.combust = is_combust pr.1 pr.2.transit_longitude (eph "Sun").longitude := by
    intro pr hpr
    unfold compare_transits at hpr
    rcases List.mem_map.mp hpr with ⟨p, _, hfp⟩
    rw [← hfp, transitSunDeg_eq]
  refine ⟨?_, ?_⟩
  · intro pr hpr
    rw [key pr hpr]
    unfold is_combust
    exact decide_eq_true_iff
  · intro pr hpr hsun
    rw [key pr hpr, hsun]
    have hlng : pr.2.transit_longitude = (eph "Sun").longitude := by
      unfold compare_transits at hpr
      rcases List.mem_map.mp hpr with ⟨p, hp, hfp⟩
      have hname : p.1 = "Sun" := by rw [← hfp] at hsun; exact hsun
      have : p.2.1 = (eph "Sun").longitude := by
        unfold get_planet_positions at hp
        simp only [List.map_cons, List.map_nil, List.cons_append, List.nil_append,
          List.mem_cons, List.not_mem_nil, or_false] at hp
        rcases hp with hp | hp | hp | hp | hp | hp | hp | hp | hp <;>
          subst hp <;> first | rfl | simp at hname
      rw [← hfp]
      exact this
    rw [hlng]
    exact is_combust_sun_self _

/-- A transit scenario with every body at longitude 100° and direct motion:
the transiting Sun then sits at its own longitude. -/
def ephC1 : String → EphEntry := fun _ => EphEntry.mk 100 1

def natalC1 : Chart := get_birth_chart 0 ephC1

/-- C1 counterexample: in the transit result for `ephC1`, the combust flag
of the body named "Sun" is `true`, not `false` — the code does not exclude
the Sun from the combustion check. -/
theorem sun_transit_combust_counterexample :
    ((compare_transits ephC1 natalC1).lookup "Sun").map TransitEntry.combust = some true := by
  have hsun : transitSunDeg ephC1 = 100 := rfl
  simp only [compare_transits, get_planet_positions, ephC1, List.map_cons, List.map_nil,
    List.cons_append, List.nil_append, List.lookup, Option.map_some]
  simp only [hsun]
  simp [is_combust_sun_self]

def firstTransitC1 : String × TransitEntry :=
  (compare_transits ephC1 natalC1).headD ("", TransitEntry.mk "" none false false 0)

/-- Witness for the amended C1 theorem at the concrete scenario `ephC1`:
its Sun entry (the head of the transit list) is combust. -/
theorem compare_transits_combust_witness : firstTransitC1.2.combust = true := by
  have hmem : firstTransitC1 ∈ compare_transits ephC1 natalC1 := by
    simp only [firstTransitC1, compare_transits, get_planet_positions, ephC1, List.map_cons,
      List.map_nil, List.cons_append, List.nil_append, List.headD_cons]
    exact List.mem_cons_self _ _
  have hname : firstTransitC1.1 = "Sun" := rfl
  exact (compare_transits_combust_amended ephC1 natalC1).2 firstTransitC1 hmem hname

/- ### Dasha timeline engine (`get_mahadasha` in `vedic.py`) -/

/-- One entry of the `all_dashas` list: lord, start and end instants
(fractional day counts, `timedelta(days=x)` becoming `+ x`), and the
reported `duration_years` — which the loop always sets to the lord's full
table value, never to the adjusted `actual_years`. -/
structure Dasha where
  lord : String
  start : ℚ
  end_ : ℚ
  duration_years : ℚ
  deriving DecidableEq

/-- Lookup `dict(DASHA_SEQUENCE)[lord]` (every lord queried is a key, so the
default 0 is never hit in the modelled executions). -/
def lordYears (lord : String) : ℚ := (DASHA_SEQUENCE.lookup lord).getD 0

/-- The `for i in range(50)` loop of `get_mahadasha`, recursing over the
remaining loop indices and threading `start` and the `mahadasha_found`
flag.  While the flag is unset, an iteration whose lord is not the natal
nakshatra lord is skipped (`continue`); the natal lord's first iteration
uses the remaining fractional years and sets the flag; afterwards every
iteration emits a full period.  Emitted `duration_years` is the table
value in all cases. -/
def dashaLoop (nakshatra_lord : String) (first_remaining : ℚ) :
    List ℕ → ℚ → Bool → List Dasha
  | [], _, _ => []
  | i :: rest, start, true =>
    let pd := DASHA_SEQUENCE.getD (i % 9) ("", 0)
    Dasha.mk pd.1 start (start + pd.2 * 365.25) pd.2 ::
      dashaLoop nakshatra_lord first_remaining rest (start + pd.2 * 365.25) true
  | i :: rest, start, false =>
    let pd := DASHA_SEQUENCE.getD (i % 9) ("", 0)
    if pd.1 = nakshatra_lord then
      Dasha.mk pd.1 start (start + first_remaining * 365.25) pd.2 ::
        dashaLoop nakshatra_lord first_remaining rest (start + first_remaining * 365.25) true
    else
      dashaLoop nakshatra_lord first_remaining rest start false

/-- Access `chart.planets["Moon"].longitude` (the Python dict lookup raises on a
missing key; all charts fed to the dasha engine contain the Moon, and the
verified statements hypothesise the key's presence). -/
def moonLongitudeOf (chart : Chart) : ℚ :=
  ((chart.planets.lookup "Moon").getD (Planet.mk "Moon" 0 "" false)).longitude

/-- The result dict of `get_mahadasha`. -/
structure MahadashaResult where
  reference_date : ℚ
  current_mahadasha : Option Dasha
  all_dashas : List Dasha
  deriving DecidableEq

/-- Function `get_mahadasha` from `vedic.py`.  `now` is the value the code reads
from `datetime.now()` at the start of the call — an input the caller never
passes, made explicit here.  `current_mahadasha` is the last emitted
period whose `[start, end]` interval contains `now` (each matching loop
iteration overwrites the previous assignment). -/
def get_mahadasha (chart : Chart) (birth_datetime : ℚ) (now : ℚ) : MahadashaResult :=
  let moon_longitude := moonLongitudeOf chart
  let nakshatra_index : ℤ := ⌊moon_longitude / NAKSHATRA_SPAN⌋
  let nakshatra_lord := NAKSHATRA_TO_DASHA_LORD.getD nakshatra_index.toNat ""
  let lord_duration := lordYears nakshatra_lord
  let degree_within_nakshatra := fmod moon_longitude NAKSHATRA_SPAN
  let portion_remaining := (NAKSHATRA_SPAN - degree_within_nakshatra) / NAKSHATRA_SPAN
  let first_dasha_remaining_years := portion_remaining * lord_duration
  let all_dashas := dashaLoop nakshatra_lord first_dasha_remaining_years
    (List.range 50) birth_datetime false
  MahadashaResult.mk now
    ((all_dashas.filter (fun d => decide (d.start ≤ now ∧ now ≤ d.end_))).getLast?)
    all_dashas

theorem NAKSHATRA_SPAN_pos : 0 < NAKSHATRA_SPAN := by norm_num [NAKSHATRA_SPAN]

theorem dasha_getD_lordYears :
    ∀ j, j < 9 → lordYears (DASHA_SEQUENCE.getD j ("", 0)).1 =
      (DASHA_SEQUENCE.getD j ("", 0)).2 := by
  intro j hj
  interval_cases j <;> rfl

theorem dasha_lords_ne : ∀ j, j < 9 → ∀ k, k < 9 → j ≠ k →
    (DASHA_SEQUENCE.getD j ("", 0)).1 ≠ (DASHA_SEQUENCE.getD k ("", 0)).1 := by
  decide

theorem nakshatra_lord_table : ∀ n, n < 27 →
    NAKSHATRA_TO_DASHA_LORD.getD n "" = (DASHA_SEQUENCE.getD (n % 9) ("", 0)).1 := by
  decide

theorem dasha_years_pos : ∀ j, j < 9 → 0 < (DASHA_SEQUENCE.getD j ("", 0)).2 := by
  intro j hj
  interval_cases j <;> norm_num [DASHA_SEQUENCE]

theorem dashaLoop_true_cons (lord : String) (r : ℚ) (i : ℕ) (rest : List ℕ) (start : ℚ) :
    dashaLoop lord r (i :: rest) start true =
      Dasha.mk (DASHA_SEQUENCE.getD (i % 9) ("", 0)).1 start
        (start + (DASHA_SEQUENCE.getD (i % 9) ("", 0)).2 * 365.25)
        (DASHA_SEQUENCE.getD (i % 9) ("", 0)).2 ::
      dashaLoop lord r rest (start + (DASHA_SEQUENCE.getD (i % 9) ("", 0)).2 * 365.25) true := by
  simp [dashaLoop]

theorem dashaLoop_true_length (lord : String) (r : ℚ) :
    ∀ (idxs : List ℕ) (start : ℚ),
      (dashaLoop lord r idxs start true).length = idxs.length := by
  intro idxs
  induction idxs with
  | nil => intro start; rfl
  | cons i rest ih =>
    intro start
    rw [dashaLoop_true_cons]
    simp only [List.length_cons, ih]

theorem dashaLoop_true_lords (lord : String) (r : ℚ) :
    ∀ (idxs : List ℕ) (start : ℚ),
      (dashaLoop lord r idxs start true).map Dasha.lord =
        idxs.map (fun i => (DASHA_SEQUENCE.getD (i % 9) ("", 0)).1) := by
  intro idxs
  induction idxs with
  | nil => intro start; rfl
  | cons i rest ih =>
    intro start
    rw [dashaLoop_true_cons]
    simp only [List.map_cons, ih]

theorem dashaLoop_true_elem (lord : String) (r : ℚ) :
    ∀ (idxs : List ℕ) (start : ℚ), ∀ d ∈ dashaLoop lord r idxs start true,
      d.end_ = d.start + d.duration_years * 365.25 ∧
      d.duration_years = lordYears d.lord := by
  intro idxs
  induction idxs with
  | nil => intro start d hd; simp [dashaLoop] at hd
  | cons i rest ih =>
    intro start d hd
    rw [dashaLoop_true_cons] at hd
    rcases List.mem_cons.mp hd with hd | hd
    · subst hd
      refine ⟨rfl, ?_⟩
      exact (dasha_getD_lordYears (i % 9) (Nat.mod_lt i (by norm_num))).symm
    · exact ih _ d hd

theorem dashaLoop_true_chain (lord : String) (r : ℚ) :
    ∀ (idxs : List ℕ) (start : ℚ),
      List.Chain' (fun a b => a.end_ = b.start) (dashaLoop lord r idxs start true) := by
  intro idxs
  induction idxs with
  | nil => intro start; simp [dashaLoop]
  | cons i rest ih =>
    intro start
    rw [dashaLoop_true_cons]
    rw [List.chain'_cons']
    refine ⟨?_, ih _⟩
    intro b hb
    cases rest with
    | nil => simp [dashaLoop] at hb
    | cons j rest2 =>
      rw [dashaLoop_true_cons] at hb
      simp only [List.head?_cons, Option.mem_def, Option.some.injEq] at hb
      rw [← hb]

theorem dashaLoop_skip (lord : String) (r : ℚ) :
    ∀ (idxs idxs2 : List ℕ) (start : ℚ),
      (∀ i ∈ idxs, (DASHA_SEQUENCE.getD (i % 9) ("", 0)).1 ≠ lord) →
      dashaLoop lord r (idxs ++ idxs2) start false =
        dashaLoop lord r idxs2 start false := by
  intro idxs
  induction idxs with
  | nil => intro idxs2 start _; rfl
  | cons i rest ih =>
    intro idxs2 start hne
    have h1 : (DASHA_SEQUENCE.getD (i % 9) ("", 0)).1 ≠ lord :=
      hne i (List.mem_cons_self _ _)
    simp only [List.cons_append, dashaLoop, if_neg h1]
    exact ih idxs2 start (fun j hj => hne j (List.mem_cons_of_mem _ hj))

theorem dashaLoop_found_cons (lord : String) (r : ℚ) (i : ℕ) (rest : List ℕ) (start : ℚ)
    (h : (DASHA_SEQUENCE.getD (i % 9) ("", 0)).1 = lord) :
    dashaLoop lord r (i :: rest) start false =
      Dasha.mk (DASHA_SEQUENCE.getD (i % 9) ("", 0)).1 start (start + r * 365.25)
        (DASHA_SEQUENCE.getD (i % 9) ("", 0)).2 ::
      dashaLoop lord r rest (start + r * 365.25) true := by
  simp only [dashaLoop]
  rw [if_pos h]

/-- Index `nakshatra_index mod 9`: position of the natal lord in the 9-lord
sequence. -/
def lordIndex (L : ℚ) : ℕ := (⌊L / NAKSHATRA_SPAN⌋).toNat % 9

/-- Value `first_dasha_remaining_years` as a function of the Moon longitude. -/
def firstRemaining (L : ℚ) : ℚ :=
  (NAKSHATRA_SPAN - fmod L NAKSHATRA_SPAN) / NAKSHATRA_SPAN *
    lordYears (DASHA_SEQUENCE.getD (lordIndex L) ("", 0)).1

theorem lordIndex_lt (L : ℚ) : lordIndex L < 9 := Nat.mod_lt _ (by norm_num)

theorem nakshatra_index_bounds (L : ℚ) (h0 : 0 ≤ L) (h360 : L < 360) :
    0 ≤ ⌊L / NAKSHATRA_SPAN⌋ ∧ (⌊L / NAKSHATRA_SPAN⌋).toNat < 27 := by
  have hspan := NAKSHATRA_SPAN_pos
  constructor
  · exact Int.floor_nonneg.mpr (div_nonneg h0 (le_of_lt hspan))
  · have hlt : L / NAKSHATRA_SPAN < 27 := by
      rw [div_lt_iff₀ hspan]
      calc L < 360 := h360
        _ = 27 * NAKSHATRA_SPAN := by norm_num [NAKSHATRA_SPAN]
    have hfl : ⌊L / NAKSHATRA_SPAN⌋ < (27 : ℤ) := Int.floor_lt.mpr (by exact_mod_cast hlt)
    omega

theorem get_mahadasha_all_eq (chart : Chart) (birth now : ℚ) :
    (get_mahadasha chart birth now).all_dashas =
      dashaLoop (NAKSHATRA_TO_DASHA_LORD.getD (⌊moonLongitudeOf chart / NAKSHATRA_SPAN⌋).toNat "")
        ((NAKSHATRA_SPAN - fmod (moonLongitudeOf chart) NAKSHATRA_SPAN) / NAKSHATRA_SPAN *
          lordYears (NAKSHATRA_TO_DASHA_LORD.getD
            (⌊moonLongitudeOf chart / NAKSHATRA_SPAN⌋).toNat ""))
        (List.range 50) birth false := rfl

theorem get_mahadasha_reference_date (chart : Chart) (birth now : ℚ) :
    (get_mahadasha chart birth now).reference_date = now := rfl

/-- Structure of the emitted timeline under a valid Moon longitude: the
loop skips the `lordIndex` iterations before the natal lord, emits the
natal lord's truncated period starting at the birth instant, then emits
full periods for the remaining loop indices. -/
theorem get_mahadasha_timeline (chart : Chart) (birth now : ℚ) (moonP : Planet)
    (hmoon : chart.planets.lookup "Moon" = some moonP)
    (h0 : 0 ≤ moonP.longitude) (h360 : moonP.longitude < 360) :
    (get_mahadasha chart birth now).all_dashas =
      Dasha.mk (DASHA_SEQUENCE.getD (lordIndex moonP.longitude) ("", 0)).1 birth
        (birth + firstRemaining moonP.longitude * 365.25)
        (DASHA_SEQUENCE.getD (lordIndex moonP.longitude) ("", 0)).2 ::
      dashaLoop (DASHA_SEQUENCE.getD (lordIndex moonP.longitude) ("", 0)).1
        (firstRemaining moonP.longitude)
        (List.range' (lordIndex moonP.longitude + 1) (49 - lordIndex moonP.longitude))
        (birth + firstRemaining moonP.longitude * 365.25) true := by
  have hL : moonLongitudeOf chart = moonP.longitude := by
    unfold moonLongitudeOf
    rw [hmoon, Option.getD_some]
  have hbounds := nakshatra_index_bounds moonP.longitude h0 h360
  have hk9 : lordIndex moonP.longitude < 9 := lordIndex_lt _
  have hlord : NAKSHATRA_TO_DASHA_LORD.getD (⌊moonP.longitude / NAKSHATRA_SPAN⌋).toNat "" =
      (DASHA_SEQUENCE.getD (lordIndex moonP.longitude) ("", 0)).1 :=
    nakshatra_lord_table _ hbounds.2
  rw [get_mahadasha_all_eq, hL, hlord]
  have hsplit : List.range 50 =
      List.range' 0 (lordIndex moonP.longitude) ++
      List.range' (lordIndex moonP.longitude) (50 - lordIndex moonP.longitude) := by
    rw [List.range_eq_range']
    rw [show List.range' (lordIndex moonP.longitude) (50 - lordIndex moonP.longitude) =
      List.range' (0 + lordIndex moonP.longitude) (50 - lordIndex moonP.longitude) from by
        rw [Nat.zero_add]]
    rw [List.range'_append_1]
    congr 1
    omega
  rw [hsplit]
  rw [dashaLoop_skip _ _ _ _ _ ?hskip]
  case hskip =>
    intro i hi
    have hik : i < 0 + lordIndex moonP.longitude := (List.mem_range'_1.mp hi).2
    have hi9 : i % 9 = i := Nat.mod_eq_of_lt (by omega)
    rw [hi9]
    exact dasha_lords_ne i (by omega) (lordIndex moonP.longitude) hk9 (by omega)
  rw [show 50 - lordIndex moonP.longitude = (49 - lordIndex moonP.longitude) + 1 from by omega,
    List.range'_succ]
  rw [dashaLoop_found_cons _ _ _ _ _ (by rw [Nat.mod_eq_of_lt hk9])]
  rw [Nat.mod_eq_of_lt hk9]
  rfl

/-- The number of emitted periods: the loop runs 50 iterations but skips
the `lordIndex` iterations before the natal lord, so `50 - lordIndex`
periods are emitted. -/
theorem mahadasha_length (chart : Chart) (birth now : ℚ) (moonP : Planet)
    (hmoon : chart.planets.lookup "Moon" = some moonP)
    (h0 : 0 ≤ moonP.longitude) (h360 : moonP.longitude < 360) :
    (get_mahadasha chart birth now).all_dashas.length =
      50 - lordIndex moonP.longitude := by
  rw [get_mahadasha_timeline chart birth now moonP hmoon h0 h360]
  rw [List.length_cons, dashaLoop_true_length, List.length_range']
  have := lordIndex_lt moonP.longitude
  omega

/-- C3 (amended): the timeline walk emits exactly `50 - lordIndex` periods
— between 42 and 50 depending on the natal lord's position in the 9-lord
cycle — not always at least 50; the count still covers several 120-year
cycles. -/
theorem mahadasha_period_count (chart : Chart) (birth now : ℚ) (moonP : Planet)
    (hmoon : chart.planets.lookup "Moon" = some moonP)
    (h0 : 0 ≤ moonP.longitude) (h360 : moonP.longitude < 360) :
    (get_mahadasha chart birth now).all_dashas.length =
      50 - lordIndex moonP.longitude ∧
    42 ≤ (get_mahadasha chart birth now).all_dashas.length := by
  have h := mahadasha_length chart birth now moonP hmoon h0 h360
  have h9 := lordIndex_lt moonP.longitude
  exact ⟨h, by omega⟩

def moonC3 : Planet := Planet.mk "Moon" 14 "Taurus" false

/-- A natal chart whose Moon sits at 14°, in the second nakshatra
(Bharani), whose lord Venus is at position 1 of the dasha sequence. -/
def chartC3 : Chart := Chart.mk "Aries" 0 [] [("Moon", moonC3)] "D1"

theorem lordIndex_14 : lordIndex (14 : ℚ) = 1 := by
  unfold lordIndex
  norm_num [NAKSHATRA_SPAN]

/-- C3 counterexample: with the Moon at 14° the walk emits only 49
periods, fewer than the claimed minimum of 50. -/
theorem mahadasha_count_counterexample :
    ¬ 50 ≤ (get_mahadasha chartC3 0 0).all_dashas.length := by
  have h := mahadasha_length chartC3 0 0 moonC3 rfl
    (by norm_num [moonC3]) (by norm_num [moonC3])
  rw [show moonC3.longitude = (14 : ℚ) from rfl, lordIndex_14] at h
  rw [h]
  omega

/-- Witness for the amended C3 theorem at the concrete chart `chartC3`. -/
theorem mahadasha_period_count_witness :
    (get_mahadasha chartC3 0 0).all_dashas.length =
      50 - lordIndex moonC3.longitude ∧
    42 ≤ (get_mahadasha chartC3 0 0).all_dashas.length :=
  mahadasha_period_count chartC3 0 0 moonC3 rfl
    (by norm_num [moonC3]) (by norm_num [moonC3])

/-- C5: the first emitted period starts at the birth instant and spans
`(1 - (moonLongitude mod span)/span) * lordFullYears * 365.25` days, and
every subsequent period spans its lord's full table years times 365.25
days — the Julian-year conversion applies uniformly, including to the
fractional first period. -/
theorem mahadasha_first_period_span (chart : Chart) (birth now : ℚ) (moonP : Planet)
    (hmoon : chart.planets.lookup "Moon" = some moonP)
    (h0 : 0 ≤ moonP.longitude) (h360 : moonP.longitude < 360) :
    ∃ d₀ ds, (get_mahadasha chart birth now).all_dashas = d₀ :: ds ∧
      d₀.start = birth ∧
      d₀.end_ - d₀.start =
        (1 - fmod moonP.longitude NAKSHATRA_SPAN / NAKSHATRA_SPAN) *
          lordYears (DASHA_SEQUENCE.getD (lordIndex moonP.longitude) ("", 0)).1 * 365.25 ∧
      (∀ d ∈ ds, d.end_ - d.start = lordYears d.lord * 365.25) := by
  rw [get_mahadasha_timeline chart birth now moonP hmoon h0 h360]
  refine ⟨_, _, rfl, rfl, ?_, ?_⟩
  · show birth + firstRemaining moonP.longitude * 365.25 - birth = _
    have hspan := NAKSHATRA_SPAN_pos
    unfold firstRemaining
    field_simp
    ring
  · intro d hd
    have h := dashaLoop_true_elem _ _ _ _ d hd
    rw [h.1, h.2]
    ring

/-- Witness for C5 at the concrete chart `chartC3`. -/
theorem mahadasha_first_period_span_witness :
    ∃ d₀ ds, (get_mahadasha chartC3 0 0).all_dashas = d₀ :: ds ∧
      d₀.start = 0 ∧
      d₀.end_ - d₀.start =
        (1 - fmod moonC3.longitude NAKSHATRA_SPAN / NAKSHATRA_SPAN) *
          lordYears (DASHA_SEQUENCE.getD (lordIndex moonC3.longitude) ("", 0)).1 * 365.25 ∧
      (∀ d ∈ ds, d.end_ - d.start = lordYears d.lord * 365.25) :=
  mahadasha_first_period_span chartC3 0 0 moonC3 rfl
    (by norm_num [moonC3]) (by norm_num [moonC3])

/-- The first 9 lords of the walk, as a concrete computation over the
9 residues of the starting position. -/
theorem take_lords (k : ℕ) (hk : k < 9) :
    (DASHA_SEQUENCE.getD k ("", 0)).1 ::
      (List.take 8 ((List.range' (k + 1) (49 - k)).map
        (fun i => (DASHA_SEQUENCE.getD (i % 9) ("", 0)).1))) =
      (List.range 9).map (fun j => (DASHA_SEQUENCE.getD ((k + j) % 9) ("", 0)).1) := by
  interval_cases k <;> decide

/-- C6: consecutive emitted periods are contiguous (each period's end is
the next one's start), the first emitted lord is the natal nakshatra lord,
and the first 9 lords follow the fixed 9-lord cyclic order starting from
it. -/
theorem mahadasha_contiguous_cyclic (chart : Chart) (birth now : ℚ) (moonP : Planet)
    (hmoon : chart.planets.lookup "Moon" = some moonP)
    (h0 : 0 ≤ moonP.longitude) (h360 : moonP.longitude < 360) :
    List.Chain' (fun a b => a.end_ = b.start)
      (get_mahadasha chart birth now).all_dashas ∧
    ((get_mahadasha chart birth now).all_dashas.map Dasha.lord).take 9 =
      (List.range 9).map (fun j =>
        (DASHA_SEQUENCE.getD ((lordIndex moonP.longitude + j) % 9) ("", 0)).1) ∧
    ((get_mahadasha chart birth now).all_dashas.head?).map Dasha.lord =
      some (NAKSHATRA_TO_DASHA_LORD.getD (⌊moonP.longitude / NAKSHATRA_SPAN⌋).toNat "") := by
  have hk9 := lordIndex_lt moonP.longitude
  rw [get_mahadasha_timeline chart birth now moonP hmoon h0 h360]
  refine ⟨?_, ?_, ?_⟩
  · rw [List.chain'_cons']
    refine ⟨?_, dashaLoop_true_chain _ _ _ _⟩
    intro b hb
    rw [show 49 - lordIndex moonP.longitude = (48 - lordIndex moonP.longitude) + 1 from by
      omega, List.range'_succ, dashaLoop_true_cons] at hb
    simp only [List.head?_cons, Option.mem_def, Option.some.injEq] at hb
    rw [← hb]
  · rw [List.map_cons, dashaLoop_true_lords]
    rw [show (9 : ℕ) = 8 + 1 from rfl, List.take_succ_cons]
    exact take_lords (lordIndex moonP.longitude) hk9
  · rw [List.head?_cons, Option.map_some']
    rw [nakshatra_lord_table _ (nakshatra_index_bounds moonP.longitude h0 h360).2]
    rfl

/-- Witness for C6 at the concrete chart `chartC3`. -/
theorem mahadasha_contiguous_cyclic_witness :
    List.Chain' (fun a b => a.end_ = b.start)
      (get_mahadasha chartC3 0 0).all_dashas ∧
    ((get_mahadasha chartC3 0 0).all_dashas.map Dasha.lord).take 9 =
      (List.range 9).map (fun j =>
        (DASHA_SEQUENCE.getD ((lordIndex moonC3.longitude + j) % 9) ("", 0)).1) ∧
    ((get_mahadasha chartC3 0 0).all_dashas.head?).map Dasha.lord =
      some (NAKSHATRA_TO_DASHA_LORD.getD (⌊moonC3.longitude / NAKSHATRA_SPAN⌋).toNat "") :=
  mahadasha_contiguous_cyclic chartC3 0 0 moonC3 rfl
    (by norm_num [moonC3]) (by norm_num [moonC3])

/-- C7: every emitted period's reported `duration_years` is its lord's
full table value — the first period's truncation shows up only in its
start/end timestamps, so whenever the Moon is strictly inside its
nakshatra the first period's `duration_years` exceeds its actual span in
years. -/
theorem mahadasha_duration_years_full (chart : Chart) (birth now : ℚ) (moonP : Planet)
    (hmoon : chart.planets.lookup "Moon" = some moonP)
    (h0 : 0 ≤ moonP.longitude) (h360 : moonP.longitude < 360) :
    (∀ d ∈ (get_mahadasha chart birth now).all_dashas,
      d.duration_years = lordYears d.lord) ∧
    (0 < fmod moonP.longitude NAKSHATRA_SPAN →
      ∃ d₀ ds, (get_mahadasha chart birth now).all_dashas = d₀ :: ds ∧
        (d₀.end_ - d₀.start) / 365.25 < d₀.duration_years) := by
  have hk9 := lordIndex_lt moonP.longitude
  rw [get_mahadasha_timeline chart birth now moonP hmoon h0 h360]
  constructor
  · intro d hd
    rcases List.mem_cons.mp hd with hd | hd
    · rw [hd]
      exact (dasha_getD_lordYears _ hk9).symm
    · exact (dashaLoop_true_elem _ _ _ _ d hd).2
  · intro hfrac
    refine ⟨_, _, rfl, ?_⟩
    show (birth + firstRemaining moonP.longitude * 365.25 - birth) / 365.25 <
      (DASHA_SEQUENCE.getD (lordIndex moonP.longitude) ("", 0)).2
    have hY := dasha_years_pos _ hk9
    have hspan := NAKSHATRA_SPAN_pos
    have hsimp : (birth + firstRemaining moonP.longitude * 365.25 - birth) / 365.25 =
        firstRemaining moonP.longitude := by
      field_simp
    rw [hsimp]
    unfold firstRemaining
    rw [dasha_getD_lordYears _ hk9]
    have hc : (NAKSHATRA_SPAN - fmod moonP.longitude NAKSHATRA_SPAN) / NAKSHATRA_SPAN < 1 := by
      rw [div_lt_one hspan]
      linarith
    calc (NAKSHATRA_SPAN - fmod moonP.longitude NAKSHATRA_SPAN) / NAKSHATRA_SPAN *
          (DASHA_SEQUENCE.getD (lordIndex moonP.longitude) ("", 0)).2
        < 1 * (DASHA_SEQUENCE.getD (lordIndex moonP.longitude) ("", 0)).2 :=
          mul_lt_mul_of_pos_right hc hY
      _ = _ := one_mul _

/-- Witness for C7 at the concrete chart `chartC3` (its Moon at 14° is
strictly inside Bharani, so the fraction hypothesis holds). -/
theorem mahadasha_duration_years_full_witness :
    (∀ d ∈ (get_mahadasha chartC3 0 0).all_dashas,
      d.duration_years = lordYears d.lord) ∧
    (0 < fmod moonC3.longitude NAKSHATRA_SPAN →
      ∃ d₀ ds, (get_mahadasha chartC3 0 0).all_dashas = d₀ :: ds ∧
        (d₀.end_ - d₀.start) / 365.25 < d₀.duration_years) :=
  mahadasha_duration_years_full chartC3 0 0 moonC3 rfl
    (by norm_num [moonC3]) (by norm_num [moonC3])

def moonC4 : Planet := Planet.mk "Moon" 0 "Aries" false

def chartC4 : Chart := Chart.mk "Aries" 0 [] [("Moon", moonC4)] "D1"

/-- C4 counterexample: two `get_mahadasha` calls with the same chart and
birth instant but different wall-clock instants return different results
(the `reference_date` field records the wall clock). -/
theorem mahadasha_wall_clock_counterexample :
    get_mahadasha chartC4 0 0 ≠ get_mahadasha chartC4 0 1 := by
  intro h
  have h2 := congrArg MahadashaResult.reference_date h
  rw [get_mahadasha_reference_date, get_mahadasha_reference_date] at h2
  norm_num at h2

/-- C4 (amended): `get_mahadasha` is a pure function of its chart, birth
instant *and* the wall-clock instant read by `datetime.now()`; the
`all_dashas` timeline does not depend on the wall clock, but
`reference_date` (and hence the full result) does. -/
theorem mahadasha_purity_amended (chart : Chart) (birth n₁ n₂ : ℚ) :
    (get_mahadasha chart birth n₁).all_dashas =
      (get_mahadasha chart birth n₂).all_dashas ∧
    (get_mahadasha chart birth n₁).reference_date = n₁ := by
  constructor
  · rw [get_mahadasha_all_eq, get_mahadasha_all_eq]
  · exact get_mahadasha_reference_date chart birth n₁

/- ### Panchanga engine (`get_panchanga` in `vedic.py`) -/

/-- Angle `tithi_angle = (moon_pos - sun_pos) % 360`. -/
def tithi_angle (moon_pos sun_pos : ℚ) : ℚ := fmod (moon_pos - sun_pos) 360

/-- Index `tithi_index = floor(tithi_angle / 12)`. -/
def tithi_index (moon_pos sun_pos : ℚ) : ℤ := ⌊tithi_angle moon_pos sun_pos / 12⌋

/-- Index `nak_index = floor(moon_pos / (13 + 1/3))`. -/
def nak_index (moon_pos : ℚ) : ℤ := ⌊moon_pos / (13 + 1 / 3)⌋

/-- Value `pada = floor((moon_pos % (13 + 1/3)) / ((13 + 1/3) / 4)) + 1`. -/
def pada (moon_pos : ℚ) : ℤ :=
  ⌊fmod moon_pos (13 + 1 / 3) / ((13 + 1 / 3) / 4)⌋ + 1

/-- Index `karana_index = floor(tithi_angle / 6) % len(KARANAS)` (18 karanas). -/
def karana_index (moon_pos sun_pos : ℚ) : ℤ :=
  ⌊tithi_angle moon_pos sun_pos / 6⌋ % 18

/-- Index `yoga_index = floor(((sun_pos + moon_pos) % 360) / (13 + 1/3))`. -/
def yoga_index (moon_pos sun_pos : ℚ) : ℤ :=
  ⌊fmod (sun_pos + moon_pos) 360 / (13 + 1 / 3)⌋

/-- The lunar-calendar fields of the `get_panchanga` result (the raw
tropical longitudes and the Julian day it also returns are pass-throughs
of its ephemeris inputs). -/
structure Panchanga where
  tithi : String
  vara : String
  yoga : String
  karana : String
  nakshatra : String
  nakshatra_pada : ℤ
  deriving DecidableEq

/-- Function `get_panchanga` from `vedic.py` with the swisseph queries abstracted:
`moon_pos`/`sun_pos` are the sidereal Moon/Sun longitudes at the requested
instant and `weekday` the calendar weekday name. -/
def get_panchanga (moon_pos sun_pos : ℚ) (weekday : String) : Panchanga :=
  Panchanga.mk
    (TITHIS.getD (tithi_index moon_pos sun_pos).toNat "")
    weekday
    (YOGAS.getD (yoga_index moon_pos sun_pos).toNat "")
    (KARANAS.getD (karana_index moon_pos sun_pos).toNat "")
    (NAKSHATRAS.getD (nak_index moon_pos).toNat "")
    (pada moon_pos)

theorem floor_div_nonneg {x b : ℚ} (hb : 0 < b) (h0 : 0 ≤ x) : 0 ≤ ⌊x / b⌋ :=
  Int.floor_nonneg.mpr (div_nonneg h0 (le_of_lt hb))

theorem floor_div_lt {x b : ℚ} (n : ℤ) (hb : 0 < b) (h : x < n * b) : ⌊x / b⌋ < n :=
  Int.floor_lt.mpr (by rw [div_lt_iff₀ hb]; exact_mod_cast h)

/-- C10: for sidereal Sun and Moon longitudes in [0, 360), every panchanga
index is in range — tithi in [0, 29], pada in {1, 2, 3, 4}, karana in
[0, 17], nakshatra in [0, 26], yoga in [0, 26] — so every table lookup in
`get_panchanga` is within bounds. -/
theorem panchanga_indices_bounds (moon_pos sun_pos : ℚ)
    (hm0 : 0 ≤ moon_pos) (hm : moon_pos < 360)
    (hs0 : 0 ≤ sun_pos) (hs : sun_pos < 360) :
    (0 ≤ tithi_index moon_pos sun_pos ∧ tithi_index moon_pos sun_pos ≤ 29) ∧
    (1 ≤ pada moon_pos ∧ pada moon_pos ≤ 4) ∧
    (0 ≤ karana_index moon_pos sun_pos ∧ karana_index moon_pos sun_pos ≤ 17) ∧
    (0 ≤ nak_index moon_pos ∧ nak_index moon_pos ≤ 26) ∧
    (0 ≤ yoga_index moon_pos sun_pos ∧ yoga_index moon_pos sun_pos ≤ 26) := by
  have h360 : (0 : ℚ) < 360 := by norm_num
  have hspan : (0 : ℚ) < 13 + 1 / 3 := by norm_num
  have hquarter : (0 : ℚ) < (13 + 1 / 3) / 4 := by norm_num
  have hangle0 := fmod_nonneg (moon_pos - sun_pos) h360
  have hangle := fmod_lt (moon_pos - sun_pos) h360
  refine ⟨⟨?_, ?_⟩, ⟨?_, ?_⟩, ⟨?_, ?_⟩, ⟨?_, ?_⟩, ⟨?_, ?_⟩⟩
  · exact floor_div_nonneg (by norm_num) hangle0
  · have := floor_div_lt (x := tithi_angle moon_pos sun_pos) (b := 12) 30 (by norm_num)
      (by unfold tithi_angle; norm_num; linarith)
    unfold tithi_index
    omega
  · have h := floor_div_nonneg hquarter (fmod_nonneg moon_pos hspan)
    unfold pada
    omega
  · have hx := fmod_lt moon_pos hspan
    have := floor_div_lt (x := fmod moon_pos (13 + 1 / 3)) (b := (13 + 1 / 3) / 4) 4
      hquarter (by norm_num; linarith)
    unfold pada
    omega
  · exact Int.emod_nonneg _ (by norm_num)
  · have := Int.emod_lt_of_pos (⌊tithi_angle moon_pos sun_pos / 6⌋) (show (0:ℤ) < 18 by norm_num)
    unfold karana_index
    omega
  · exact floor_div_nonneg hspan hm0
  · have := floor_div_lt (x := moon_pos) (b := 13 + 1 / 3) 27 hspan (by norm_num; linarith)
    unfold nak_index
    omega
  · exact floor_div_nonneg hspan (fmod_nonneg _ h360)
  · have hy := fmod_lt (sun_pos + moon_pos) h360
    have := floor_div_lt (x := fmod (sun_pos + moon_pos) 360) (b := 13 + 1 / 3) 27 hspan
      (by norm_num; linarith)
    unfold yoga_index
    omega

/-- Witness for C10 at Moon 100°, Sun 50°. -/
theorem panchanga_indices_bounds_witness :
    (0 ≤ tithi_index 100 50 ∧ tithi_index 100 50 ≤ 29) ∧
    (1 ≤ pada 100 ∧ pada 100 ≤ 4) ∧
    (0 ≤ karana_index 100 50 ∧ karana_index 100 50 ≤ 17) ∧
    (0 ≤ nak_index 100 ∧ nak_index 100 ≤ 26) ∧
    (0 ≤ yoga_index 100 50 ∧ yoga_index 100 50 ≤ 26) :=
  panchanga_indices_bounds 100 50 (by norm_num) (by norm_num) (by norm_num) (by norm_num)

/- ### C9: unsupported divisional chart types -/

/-- C9: a chart-type code outside the supported set yields a null chart
and the fixed message enumerating all 20 supported codes (the function is
total — no exception); every supported code yields a non-null chart. -/
theorem divisional_chart_unsupported (chart_type : String) (asc_deg : ℚ)
    (eph : String → EphEntry) :
    (SUPPORTED_DIVISIONAL_CHARTS.lookup chart_type = none →
      (get_divisional_chart chart_type asc_deg eph).chart = none ∧
      (get_divisional_chart chart_type asc_deg eph).formatted_text =
        "Unsupported divisional chart type. Please choose from: " ++
          "D1, D2, D3, D4, D5, D6, D7, D8, D9, D10, D11, D12, D16, D20, D24, D27, D30, D40, D45, D60") ∧
    (∀ f, SUPPORTED_DIVISIONAL_CHARTS.lookup chart_type = some f →
      ∃ c, (get_divisional_chart chart_type asc_deg eph).chart = some c) := by
  constructor
  · intro hlook
    rw [get_divisional_chart, hlook]
    exact ⟨rfl, rfl⟩
  · intro f hlook
    rw [get_divisional_chart, hlook]
    exact ⟨_, rfl⟩

/-- An ephemeris placing every body at longitude 0° with speed 0. -/
def ephZero : String → EphEntry := fun _ => EphEntry.mk 0 0

/-- Witness for C9: "D13" (unsupported) yields a null chart with the
enumerating message; "D9" (supported) yields a chart. -/
theorem divisional_chart_unsupported_witness :
    ((get_divisional_chart "D13" 0 ephZero).chart = none ∧
      (get_divisional_chart "D13" 0 ephZero).formatted_text =
        "Unsupported divisional chart type. Please choose from: " ++
          "D1, D2, D3, D4, D5, D6, D7, D8, D9, D10, D11, D12, D16, D20, D24, D27, D30, D40, D45, D60") ∧
    ∃ c, (get_divisional_chart "D9" 0 ephZero).chart = some c :=
  ⟨(divisional_chart_unsupported "D13" 0 ephZero).1 (by decide),
   (divisional_chart_unsupported "D9" 0 ephZero).2 9 (by decide)⟩

/-- Witness for C2 at the concrete ascendant 0° and ephemeris `ephZero`,
with the divisional chart type "D9". -/
theorem chart_bodies_partition_witness :
    countName (get_birth_chart 0 ephZero).houses "Moon" = 1 ∧
    countName (Chart.mk (get_divisional_sign 0 9) 0 (divisionalHouses 9 0 ephZero)
      (divisionalPlanets 9 ephZero) "D9").houses "Moon" = 1 := by
  have hdiv : (get_divisional_chart "D9" 0 ephZero).chart =
      some (Chart.mk (get_divisional_sign 0 9) 0 (divisionalHouses 9 0 ephZero)
        (divisionalPlanets 9 ephZero) "D9") := by
    rw [get_divisional_chart, show SUPPORTED_DIVISIONAL_CHARTS.lookup "D9" = some 9 from by
      decide]
  have h := chart_bodies_partition 0 ephZero "D9" _ hdiv
  constructor
  · rw [h.1 "Moon"]
    decide
  · rw [h.2.2.2.1 "Moon"]
    decide

end Vedicchart
